import Mathlib

/-!
Verification of the order/payment workflow of `src/app.py` (a FastAPI +
SQLite backend selling in-game currency with KHQR payment QR codes).

The SQLite database is embedded as three lists of row structures
(`users`, `item_prices`, `orders`).  SQL primary keys are modelled by the
uniqueness checks SQLite itself performs: `INSERT OR IGNORE` skips a row
whose key exists, a plain `INSERT` fails on a duplicate key, and
`fetchone` returns the first matching row (`List.find?`).  Prices
(SQLite `REAL`) are embedded as rationals.  Sources of nondeterminism
are passed explicitly: `random.choices` becomes a `Fin 8 → Fin 36`
choice function, the external KHQR/qrcode collaborators inside the `try`
block of `generate_qr_code` become an `Except String (String × String)`
argument (exception, or the produced base64 image and md5 fingerprint),
and `now_iso` becomes a `created_at : String` argument.
-/

/-- Row of the `users` table: `user_id INTEGER PRIMARY KEY`, `username TEXT`,
`balance REAL DEFAULT 0`, `is_reseller INTEGER DEFAULT 0`. -/
structure UserRow where
  user_id : Int
  username : String
  balance : Rat
  is_reseller : Int
deriving Repr, DecidableEq

/-- Row of the `item_prices` table: `item_id TEXT PRIMARY KEY`, `game TEXT`,
`normal_price REAL`, `reseller_price REAL`. -/
structure ItemRow where
  item_id : String
  game : String
  normal_price : Rat
  reseller_price : Rat
deriving Repr, DecidableEq

/-- Row of the `orders` table.  `payment_response` and `paid_at` are
nullable (`Option`): the `INSERT` in `buy` omits both, leaving them NULL. -/
structure OrderRow where
  order_id : String
  user_id : Int
  game : String
  item_id : String
  amount : Rat
  server_id : String
  zone_id : String
  md5 : String
  status : String
  payment_response : Option String
  created_at : String
  paid_at : Option String
deriving Repr, DecidableEq

/-- The whole SQLite database `bot_data.db`. -/
structure DBState where
  users : List UserRow
  item_prices : List ItemRow
  orders : List OrderRow
deriving Repr, DecidableEq

/-- The alphabet `string.ascii_uppercase + string.digits` used by
`generate_short_transaction_id`. -/
def idAlphabet : List Char := "ABCDEFGHIJKLMNOPQRSTUVWXYZ0123456789".toList

/-- `generate_short_transaction_id` (src/app.py line 34):
`''.join(random.choices(string.ascii_uppercase + string.digits, k=8))`.
The eight uniform random draws of `random.choices` are the explicit
argument `choices`. -/
def generate_short_transaction_id (choices : Fin 8 → Fin 36) : String :=
  String.mk ((List.finRange 8).map fun i => idAlphabet.getD (choices i).val 'A')

/-- The regular expression `[A-Z0-9]\x7b8\x7d` from the spec, as a decidable
predicate on strings. -/
def matchesOrderIdPattern (s : String) : Bool :=
  s.toList.length == 8 &&
    s.toList.all fun c => (('A' ≤ c && c ≤ 'Z') || ('0' ≤ c && c ≤ '9'))

/-- The fixed seed list `items` of `init_db` (src/app.py lines 74-81),
values exactly as in the source (including the `172_DIAMAND` spelling). -/
def default_items : List ItemRow :=
  [⟨"86_DIAMOND", "MLBB", 3/100, 3/100⟩,
   ⟨"172_DIAMAND", "MLBB", 3/100, 3/100⟩,
   ⟨"344_DIAMOND", "MLBB", 64/10, 56/10⟩,
   ⟨"429_DIAMOND", "MLBB", 8, 7⟩,
   ⟨"50_DIAMOND", "FF", 1, 85/100⟩,
   ⟨"100_DIAMOND", "FF", 2, 17/10⟩]

/-- One `INSERT OR IGNORE INTO item_prices` statement: SQLite skips the
insert when a row with the same primary key `item_id` already exists. -/
def insertOrIgnoreItem (t : List ItemRow) (r : ItemRow) : List ItemRow :=
  if t.any fun x => x.item_id == r.item_id then t else t ++ [r]

/-- The `executemany` seeding loop of `init_db` (src/app.py lines 82-85). -/
def seed_items (t : List ItemRow) : List ItemRow :=
  default_items.foldl insertOrIgnoreItem t

/-- `init_db` (src/app.py lines 38-87): creates the tables if absent and
seeds `item_prices` with `INSERT OR IGNORE`.  On an existing database the
only effect is the idempotent seed. -/
def init_db (st : DBState) : DBState :=
  { st with item_prices := seed_items st.item_prices }

/-- `get_item_prices` (src/app.py lines 92-97): `SELECT item_id,
normal_price, reseller_price FROM item_prices WHERE game=?`, returned as
an association of `item_id` to the two prices. -/
def get_item_prices (st : DBState) (game : String) : List (String × Rat × Rat) :=
  (st.item_prices.filter fun r => r.game == game).map
    fun r => (r.item_id, r.normal_price, r.reseller_price)

/-- `is_reseller` (src/app.py lines 99-104): `SELECT is_reseller FROM users
WHERE user_id=?`, `fetchone`, then `result[0] == 1 if result else False`. -/
def is_reseller (st : DBState) (uid : Int) : Bool :=
  match st.users.find? fun u => u.user_id == uid with
  | none => false
  | some u => u.is_reseller == 1

/-- `generate_qr_code` (src/app.py lines 107-130).  The external calls
inside the `try` block (KHQR payload construction, QR image rendering and
PNG/base64 encoding, md5 hashing) are the argument `ext`: `Except.ok (b64,
md5)` when they all succeed, `Except.error e` when any of them raises.  On
error the exception is caught, logged, and `(None, None)` is returned. -/
def generate_qr_code (ext : Except String (String × String)) :
    Option String × Option String :=
  match ext with
  | .ok (b64, md5_hash) => (some b64, some md5_hash)
  | .error _ => (none, none)

/-- Python truthiness of an optional string, as used by
`if not qr_b64 or not md5` in `buy`: `None` and the empty string are falsy. -/
def truthyStr : Option String → Bool
  | none => false
  | some s => !(s == "")

/-- Errors a request handler can surface. -/
inductive HErr where
  /-- `HTTPException(status_code=404, detail="Item not found")`. -/
  | notFound
  /-- `HTTPException(status_code=500, detail="Failed to generate QR")`. -/
  | qrFailed
  /-- Uncaught `sqlite3.IntegrityError` from inserting a duplicate
  `order_id` primary key, surfaced by FastAPI as a generic HTTP 500. -/
  | integrity
deriving Repr, DecidableEq

/-- The data rendered into `deposit.html` by a successful `buy`. -/
structure BuyResp where
  qr : String
  order_id : String
  amount : Rat
deriving Repr, DecidableEq

/-- A plain `INSERT INTO orders`: fails with `sqlite3.IntegrityError` when
the primary key `order_id` already exists, otherwise appends the row. -/
def insertOrder (t : List OrderRow) (o : OrderRow) : Except HErr (List OrderRow) :=
  if t.any fun r => r.order_id == o.order_id then .error .integrity
  else .ok (t ++ [o])

/-- `POST /buy` (src/app.py lines 141-172).  Looks up `normal_price` for
`(item_id, game)` (404 when absent), generates the payment QR (500 when
the generator yields no image or no fingerprint), then inserts an order
row with `status = "UNPAID"` and NULL `payment_response` / `paid_at`.
`choices` are the random draws for the fresh `order_id`, `created_at` is
the value of `now_iso()`.  Returns the response (or error) together with
the database state after the request. -/
def buy (st : DBState) (game item_id server_id zone_id : String)
    (qrExt : Except String (String × String)) (choices : Fin 8 → Fin 36)
    (created_at : String) : Except HErr BuyResp × DBState :=
  match st.item_prices.find? fun r => r.item_id == item_id && r.game == game with
  | none => (.error .notFound, st)
  | some row =>
    let amount := row.normal_price
    let qr := generate_qr_code qrExt
    if !truthyStr qr.1 || !truthyStr qr.2 then (.error .qrFailed, st)
    else
      match qr with
      | (some qr_b64, some md5) =>
        let order_id := generate_short_transaction_id choices
        let o : OrderRow :=
          { order_id := order_id, user_id := 1, game := game, item_id := item_id,
            amount := amount, server_id := server_id, zone_id := zone_id,
            md5 := md5, status := "UNPAID", payment_response := none,
            created_at := created_at, paid_at := none }
        match insertOrder st.orders o with
        | .error e => (.error e, st)
        | .ok os =>
          (.ok { qr := qr_b64, order_id := order_id, amount := amount },
           { st with orders := os })
      | _ => (.error .qrFailed, st)

/-- Response of `GET /order_status/(order_id)` (src/app.py lines 174-182). -/
inductive StatusResp where
  /-- `JSONResponse(\x7b"error": "not found"\x7d, status_code=404)`: the
  HTTP status code and the value of the single `error` key of the body. -/
  | errJson (status_code : Nat) (error_msg : String)
  /-- The JSON body `\x7bstatus, payment_response, paid_at\x7d`. -/
  | found (status : String) (payment_response : Option String)
      (paid_at : Option String)
deriving Repr, DecidableEq

/-- The `SELECT status, payment_response, paid_at FROM orders WHERE
order_id=?` / `fetchone` step of the status route, and the formatting of
its result. -/
def order_status_result (t : List OrderRow) (order_id : String) : StatusResp :=
  match t.find? fun r => r.order_id == order_id with
  | none => .errJson 404 "not found"
  | some r => .found r.status r.payment_response r.paid_at

/-- `GET /order_status/(order_id)` (src/app.py lines 174-182): `SELECT
status, payment_response, paid_at FROM orders WHERE order_id=?`,
`fetchone`; 404 JSON body when no row matches. -/
def order_status (st : DBState) (order_id : String) : StatusResp × DBState :=
  (order_status_result st.orders order_id, st)

/-- The data rendered into `mlbb.html` by `GET /` (src/app.py lines
133-139), for the hardcoded demo user 1. -/
structure HomeResp where
  ml_items : List (String × Rat × Rat)
  ff_items : List (String × Rat × Rat)
  reseller : Bool
deriving Repr, DecidableEq

/-- `GET /` (src/app.py lines 133-139). -/
def home (st : DBState) : HomeResp × DBState :=
  ({ ml_items := get_item_prices st "MLBB",
     ff_items := get_item_prices st "FF",
     reseller := is_reseller st 1 }, st)

/-- The columns projected by the `SELECT` of `GET /orders`
(src/app.py lines 189-192). -/
structure OrderSummary where
  order_id : String
  game : String
  item_id : String
  amount : Rat
  server_id : String
  zone_id : String
  status : String
  created_at : String
  paid_at : Option String
deriving Repr, DecidableEq

/-- Projection of an order row onto the columns of the `/orders` query. -/
def summarize (r : OrderRow) : OrderSummary :=
  ⟨r.order_id, r.game, r.item_id, r.amount, r.server_id, r.zone_id,
   r.status, r.created_at, r.paid_at⟩

/-- The `ORDER BY created_at DESC` comparison: SQLite compares TEXT
byte-wise, descending. -/
def newestFirst (a b : OrderRow) : Bool :=
  decide (b.created_at ≤ a.created_at)

/-- `GET /orders` (src/app.py lines 184-194): `SELECT ... FROM orders
WHERE user_id=? ORDER BY created_at DESC` for the demo user 1. -/
def orders_page (st : DBState) : List OrderSummary × DBState :=
  ((((st.orders.filter fun r => r.user_id == 1).mergeSort newestFirst).map
    summarize), st)

/-- The order row `buy` inserts when the catalog lookup yielded `row`,
the QR generator yielded fingerprint `md5`, and the random draws were
`choices`. -/
def buyInsertedRow (game item_id server_id zone_id md5 created_at : String)
    (row : ItemRow) (choices : Fin 8 → Fin 36) : OrderRow :=
  { order_id := generate_short_transaction_id choices, user_id := 1,
    game := game, item_id := item_id, amount := row.normal_price,
    server_id := server_id, zone_id := zone_id, md5 := md5,
    status := "UNPAID", payment_response := none,
    created_at := created_at, paid_at := none }

/-- The fields of an order row that the status route can reveal, plus the
`order_id` it filters by; everything else (in particular `user_id`) is
hidden. -/
def orderObs (r : OrderRow) : String × String × Option String × Option String :=
  (r.order_id, r.status, r.payment_response, r.paid_at)

/-- A concrete database: the demo user, the seeded catalog, no orders. -/
def demoState : DBState :=
  { users := [⟨1, "demo", 0, 0⟩], item_prices := default_items, orders := [] }

/-- A concrete sequence of random draws. -/
def demoChoices : Fin 8 → Fin 36 := fun i => ⟨i.val, by omega⟩

/-- A concrete database holding one paid order. -/
def paidState : DBState :=
  { users := [⟨1, "demo", 0, 0⟩], item_prices := default_items,
    orders := [⟨"ORDER001", 1, "MLBB", "86_DIAMOND", 3/100, "1234", "5",
      "FPMD5", "PAID", some "resp-payload", "2026-01-01T00:00:00+07:00",
      some "2026-01-02T00:00:00+07:00"⟩] }

/-- A concrete users table with a reseller and a non-reseller. -/
def usersState : DBState :=
  { users := [⟨1, "demo", 0, 0⟩, ⟨2, "shop", 0, 1⟩],
    item_prices := [], orders := [] }

/-! ## Helper lemmas -/

/-- Every character the transaction-id alphabet can yield is an uppercase
letter or a digit. -/
lemma idAlphabet_getD_valid : ∀ j : Fin 36,
    ((('A' ≤ idAlphabet.getD j.val 'A' && idAlphabet.getD j.val 'A' ≤ 'Z') ||
      ('0' ≤ idAlphabet.getD j.val 'A' && idAlphabet.getD j.val 'A' ≤ '9'))) = true := by
  decide

/-- Whatever the random draws, `generate_short_transaction_id` matches
the pattern of eight uppercase letters or digits. -/
lemma matchesOrderIdPattern_gen (choices : Fin 8 → Fin 36) :
    matchesOrderIdPattern (generate_short_transaction_id choices) = true := by
  unfold matchesOrderIdPattern generate_short_transaction_id
  have hl : (String.mk ((List.finRange 8).map
      fun i => idAlphabet.getD (choices i).val 'A')).toList
      = (List.finRange 8).map fun i => idAlphabet.getD (choices i).val 'A' := rfl
  rw [hl]
  simp only [List.length_map, List.length_finRange, List.all_eq_true,
    Bool.and_eq_true, beq_iff_eq, true_and]
  intro c hc
  obtain ⟨i, _, rfl⟩ := List.mem_map.mp hc
  exact idAlphabet_getD_valid (choices i)

/-- Shape of a fully successful `buy`: catalog hit, QR generator succeeds
with a nonempty image and fingerprint, and the fresh order id does not
collide with an existing one. -/
lemma buy_ok_eq (st : DBState) (game item_id server_id zone_id : String)
    (row : ItemRow) (b64 md5 created_at : String) (choices : Fin 8 → Fin 36)
    (hfind : (st.item_prices.find? fun r => r.item_id == item_id && r.game == game)
      = some row)
    (hb : ¬ b64 = "") (hm : ¬ md5 = "")
    (hfresh : (st.orders.any
      fun r => r.order_id == generate_short_transaction_id choices) = false) :
    buy st game item_id server_id zone_id (.ok (b64, md5)) choices created_at
      = (.ok { qr := b64, order_id := generate_short_transaction_id choices,
               amount := row.normal_price },
         { st with orders := st.orders ++
             [buyInsertedRow game item_id server_id zone_id md5 created_at row choices] }) := by
  unfold buy
  rw [hfind]
  simp [generate_qr_code, truthyStr, insertOrder, hfresh,
    beq_eq_false_iff_ne.mpr hb, beq_eq_false_iff_ne.mpr hm, buyInsertedRow]

/-! ## Claim theorems -/

/-- C1: for every `(game, item_id)` pair present in the catalog, when QR
generation succeeds (the external collaborator returns an actual image
and fingerprint) and the freshly drawn order id does not collide with an
existing one, `POST /buy` returns an `order_id` matching `[A-Z0-9]` eight
times and persists an order row for that `order_id` with
`status = "UNPAID"`. -/
theorem buy_success_creates_unpaid_order
    (st : DBState) (game item_id server_id zone_id : String) (row : ItemRow)
    (b64 md5 created_at : String) (choices : Fin 8 → Fin 36)
    (hfind : (st.item_prices.find? fun r => r.item_id == item_id && r.game == game)
      = some row)
    (hb : ¬ b64 = "") (hm : ¬ md5 = "")
    (hfresh : (st.orders.any
      fun r => r.order_id == generate_short_transaction_id choices) = false) :
    ∃ resp st',
      buy st game item_id server_id zone_id (.ok (b64, md5)) choices created_at
        = (.ok resp, st') ∧
      matchesOrderIdPattern resp.order_id = true ∧
      (st'.orders.find? fun r => r.order_id == resp.order_id).map
        (fun r => r.status) = some "UNPAID" := by
  refine ⟨_, _, buy_ok_eq st game item_id server_id zone_id row b64 md5
    created_at choices hfind hb hm hfresh, matchesOrderIdPattern_gen choices, ?_⟩
  have hnone : (st.orders.find?
      fun r => r.order_id == generate_short_transaction_id choices) = none := by
    rw [List.find?_eq_none]
    intro x hx
    exact (List.any_eq_false.mp hfresh) x hx
  simp [List.find?_append, hnone, Option.none_or, buyInsertedRow,
    List.find?_cons, beq_self_eq_true]

theorem buy_success_creates_unpaid_order_witness :
    ∃ resp st',
      buy demoState "MLBB" "86_DIAMOND" "1234" "5" (.ok ("QRIMG", "FPMD5")) demoChoices
        "2026-01-01T00:00:00+07:00" = (.ok resp, st') ∧
      matchesOrderIdPattern resp.order_id = true ∧
      (st'.orders.find? fun r => r.order_id == resp.order_id).map
        (fun r => r.status) = some "UNPAID" :=
  buy_success_creates_unpaid_order demoState "MLBB" "86_DIAMOND" "1234" "5"
    ⟨"86_DIAMOND", "MLBB", 3/100, 3/100⟩ "QRIMG" "FPMD5"
    "2026-01-01T00:00:00+07:00" demoChoices (by rfl) (by decide) (by decide)
    (by rfl)

/-- Shape of `buy` when the catalog lookup misses. -/
lemma buy_notFound_eq (st : DBState) (game item_id server_id zone_id : String)
    (qrExt : Except String (String × String)) (choices : Fin 8 → Fin 36)
    (created_at : String)
    (h : (st.item_prices.find? fun r => r.item_id == item_id && r.game == game) = none) :
    buy st game item_id server_id zone_id qrExt choices created_at
      = (.error .notFound, st) := by
  unfold buy
  rw [h]

/-- Shape of `buy` when the catalog lookup hits but the external QR
collaborator raises. -/
lemma buy_qrErr_eq (st : DBState) (game item_id server_id zone_id : String)
    (e : String) (choices : Fin 8 → Fin 36) (created_at : String) (row : ItemRow)
    (hfind : (st.item_prices.find? fun r => r.item_id == item_id && r.game == game)
      = some row) :
    buy st game item_id server_id zone_id (.error e) choices created_at
      = (.error .qrFailed, st) := by
  unfold buy
  rw [hfind]
  simp [generate_qr_code, truthyStr]

/-- Inversion of a successful `buy`: it can only return `.ok` via the
full success path, and then response and state have the canonical shape. -/
lemma buy_ok_inv (st : DBState) (game item_id server_id zone_id : String)
    (qrExt : Except String (String × String)) (choices : Fin 8 → Fin 36)
    (created_at : String) (resp : BuyResp) (st' : DBState)
    (hok : buy st game item_id server_id zone_id qrExt choices created_at
      = (.ok resp, st')) :
    ∃ row b64 md5,
      (st.item_prices.find? fun r => r.item_id == item_id && r.game == game)
        = some row ∧
      qrExt = .ok (b64, md5) ∧ ¬ b64 = "" ∧ ¬ md5 = "" ∧
      (st.orders.any
        fun r => r.order_id == generate_short_transaction_id choices) = false ∧
      resp = { qr := b64, order_id := generate_short_transaction_id choices,
               amount := row.normal_price } ∧
      st' = { st with orders := st.orders ++
        [buyInsertedRow game item_id server_id zone_id md5 created_at row choices] } := by
  cases hfind : st.item_prices.find? fun r => r.item_id == item_id && r.game == game with
  | none =>
    rw [buy_notFound_eq st game item_id server_id zone_id qrExt choices created_at hfind]
      at hok
    simp at hok
  | some row =>
    cases qrExt with
    | error e =>
      rw [buy_qrErr_eq st game item_id server_id zone_id e choices created_at row hfind]
        at hok
      simp at hok
    | ok p =>
      obtain ⟨b64, md5⟩ := p
      by_cases hb : b64 = ""
      · subst hb
        unfold buy at hok
        rw [hfind] at hok
        simp [generate_qr_code, truthyStr] at hok
      by_cases hm : md5 = ""
      · subst hm
        unfold buy at hok
        rw [hfind] at hok
        simp [generate_qr_code, truthyStr] at hok
      by_cases hcol : (st.orders.any
          fun r => r.order_id == generate_short_transaction_id choices) = true
      · unfold buy at hok
        rw [hfind] at hok
        simp [generate_qr_code, truthyStr, insertOrder, hcol,
          beq_eq_false_iff_ne.mpr hb, beq_eq_false_iff_ne.mpr hm] at hok
      · have hcol' : (st.orders.any
            fun r => r.order_id == generate_short_transaction_id choices) = false :=
          Bool.not_eq_true _ ▸ hcol
        rw [buy_ok_eq st game item_id server_id zone_id row b64 md5 created_at
          choices hfind hb hm hcol'] at hok
        injection hok with h1 h2
        injection h1 with h1
        exact ⟨row, b64, md5, rfl, rfl, hb, hm, hcol', h1.symm, h2.symm⟩

/-- C2: for every `(game, item_id)` pair not present in the catalog,
`POST /buy` fails with 404 `Item not found` and leaves the database —
in particular the order store — unchanged. -/
theorem buy_unknown_item_404 (st : DBState)
    (game item_id server_id zone_id : String)
    (qrExt : Except String (String × String)) (choices : Fin 8 → Fin 36)
    (created_at : String)
    (habsent : ∀ r ∈ st.item_prices, ¬ (r.item_id = item_id ∧ r.game = game)) :
    buy st game item_id server_id zone_id qrExt choices created_at
      = (.error HErr.notFound, st) := by
  apply buy_notFound_eq
  rw [List.find?_eq_none]
  intro x hx hx'
  exact habsent x hx (by simpa using hx')

theorem buy_unknown_item_404_witness :
    buy demoState "MLBB" "999_DIAMOND" "1234" "5" (.ok ("QRIMG", "FPMD5"))
      demoChoices "2026-01-01T00:00:00+07:00" = (.error HErr.notFound, demoState) :=
  buy_unknown_item_404 demoState "MLBB" "999_DIAMOND" "1234" "5"
    (.ok ("QRIMG", "FPMD5")) demoChoices "2026-01-01T00:00:00+07:00"
    (by decide)

/-- C3: an exception anywhere inside `generate_qr_code`'s try block makes
it return `(None, None)`, and `POST /buy` (whose catalog lookup hit `row`)
then fails with 500 `Failed to generate QR`, leaving the database — in
particular the order store — unchanged: no partial order is persisted
without a valid QR. -/
theorem qr_failure_fails_closed (st : DBState)
    (game item_id server_id zone_id : String) (e : String)
    (choices : Fin 8 → Fin 36) (created_at : String) (row : ItemRow)
    (hfind : (st.item_prices.find? fun r => r.item_id == item_id && r.game == game)
      = some row) :
    generate_qr_code (.error e) = (none, none) ∧
    buy st game item_id server_id zone_id (.error e) choices created_at
      = (.error HErr.qrFailed, st) :=
  ⟨rfl, buy_qrErr_eq st game item_id server_id zone_id e choices created_at row hfind⟩

theorem qr_failure_fails_closed_witness :
    generate_qr_code (.error "connection reset") = (none, none) ∧
    buy demoState "MLBB" "86_DIAMOND" "1234" "5" (.error "connection reset")
      demoChoices "2026-01-01T00:00:00+07:00" = (.error HErr.qrFailed, demoState) :=
  qr_failure_fails_closed demoState "MLBB" "86_DIAMOND" "1234" "5"
    "connection reset" demoChoices "2026-01-01T00:00:00+07:00"
    ⟨"86_DIAMOND", "MLBB", 3/100, 3/100⟩ (by rfl)

/-- C5: when the catalog lookup for `(game, item_id)` yields the row
`row`, a successful `buy` responds with `amount = row.normal_price` and
persists exactly that amount in the new order row — the reseller price is
never charged. -/
theorem buy_amount_eq_normal_price (st : DBState)
    (game item_id server_id zone_id : String)
    (qrExt : Except String (String × String)) (choices : Fin 8 → Fin 36)
    (created_at : String) (row : ItemRow) (resp : BuyResp) (st' : DBState)
    (hfind : (st.item_prices.find? fun r => r.item_id == item_id && r.game == game)
      = some row)
    (hok : buy st game item_id server_id zone_id qrExt choices created_at
      = (.ok resp, st')) :
    resp.amount = row.normal_price ∧
    ∃ o, st'.orders = st.orders ++ [o] ∧ o.amount = row.normal_price := by
  obtain ⟨row', b64, md5, hfind', hqr, hb, hm, hcol, hresp, hst'⟩ :=
    buy_ok_inv st game item_id server_id zone_id qrExt choices created_at
      resp st' hok
  rw [hfind] at hfind'
  obtain rfl := (Option.some.injEq ..).mp hfind'
  subst hresp hst'
  exact ⟨rfl, _, rfl, rfl⟩

theorem buy_amount_eq_normal_price_witness :
    ∃ resp st', buy demoState "FF" "50_DIAMOND" "1234" "5" (.ok ("QRIMG", "FPMD5"))
      demoChoices "2026-01-01T00:00:00+07:00" = (.ok resp, st') ∧
      resp.amount = 1 ∧
      ∃ o, st'.orders = demoState.orders ++ [o] ∧ o.amount = 1 := by
  have h := buy_ok_eq demoState "FF" "50_DIAMOND" "1234" "5"
    ⟨"50_DIAMOND", "FF", 1, 85/100⟩ "QRIMG" "FPMD5"
    "2026-01-01T00:00:00+07:00" demoChoices (by rfl) (by decide) (by decide) (by rfl)
  refine ⟨_, _, h, ?_⟩
  have h2 := buy_amount_eq_normal_price demoState "FF" "50_DIAMOND" "1234" "5"
    (.ok ("QRIMG", "FPMD5")) demoChoices "2026-01-01T00:00:00+07:00"
    ⟨"50_DIAMOND", "FF", 1, 85/100⟩ _ _ (by rfl) h
  exact ⟨h2.1, h2.2⟩

/-- `find?` over a list whose keys are pairwise distinct returns the
member whose key is searched for. -/
lemma find?_eq_of_key_nodup {α β : Type} [BEq β] [LawfulBEq β] (key : α → β) :
    ∀ (l : List α), (l.map key).Nodup → ∀ x ∈ l,
      l.find? (fun y => key y == key x) = some x := by
  intro l
  induction l with
  | nil => intro _ x hx; cases hx
  | cons a t ih =>
    intro hnd x hx
    simp only [List.map_cons, List.nodup_cons] at hnd
    rcases List.mem_cons.mp hx with rfl | hxt
    · simp
    · by_cases hk : key a == key x
      · exact absurd (List.mem_map_of_mem key hxt)
          (by rw [← eq_of_beq hk]; exact hnd.1)
      · rw [List.find?_cons_of_neg _ (by simpa using hk)]
        exact ih hnd.2 x hxt

/-- C4: `GET /order_status/(order_id)` answers 404 with JSON body
`(error: not found)` exactly when no order with that id exists; when an
order exists (ids being unique, as the `order_id` primary key
guarantees), it returns that order's stored `status`,
`payment_response` and `paid_at`; and on the order freshly created by a
successful `buy` this is `UNPAID` with null `payment_response` and
`paid_at`. -/
theorem order_status_spec (st : DBState) (oid : String)
    (hnd : (st.orders.map fun r => r.order_id).Nodup) :
    ((order_status st oid).1 = .errJson 404 "not found" ↔
      ∀ r ∈ st.orders, r.order_id ≠ oid) ∧
    (∀ r ∈ st.orders, r.order_id = oid →
      (order_status st oid).1 = .found r.status r.payment_response r.paid_at) ∧
    (∀ game item_id server_id zone_id qrExt choices created_at resp st',
      buy st game item_id server_id zone_id qrExt choices created_at
        = (.ok resp, st') →
      (order_status st' resp.order_id).1 = .found "UNPAID" none none) := by
  refine ⟨?_, ?_, ?_⟩
  · unfold order_status order_status_result
    cases hf : st.orders.find? fun r => r.order_id == oid with
    | none =>
      simp only [true_iff]
      intro r hr
      have := List.find?_eq_none.mp hf r hr
      simpa using this
    | some r =>
      simp only [reduceCtorEq, false_iff, not_forall]
      have hmem := List.mem_of_find?_eq_some hf
      have hkey : r.order_id = oid := by simpa using List.find?_some hf
      exact ⟨r, hmem, by simp [hkey]⟩
  · intro r hr hoid
    subst hoid
    unfold order_status order_status_result
    rw [find?_eq_of_key_nodup (fun y => y.order_id) st.orders hnd r hr]
  · intro game item_id server_id zone_id qrExt choices created_at resp st' hok
    obtain ⟨row, b64, md5, hfind, hqr, hb, hm, hcol, hresp, hst'⟩ :=
      buy_ok_inv st game item_id server_id zone_id qrExt choices created_at
        resp st' hok
    subst hresp hst'
    unfold order_status order_status_result
    have hnone : (st.orders.find?
        fun r => r.order_id == generate_short_transaction_id choices) = none := by
      rw [List.find?_eq_none]
      exact fun x hx => List.any_eq_false.mp hcol x hx
    simp [List.find?_append, hnone, buyInsertedRow]

theorem order_status_spec_witness :
    (order_status paidState "ZZZZZZZZ").1 = .errJson 404 "not found" ∧
    (order_status paidState "ORDER001").1
      = .found "PAID" (some "resp-payload") (some "2026-01-02T00:00:00+07:00") := by
  constructor
  · exact (order_status_spec paidState "ZZZZZZZZ" (by decide)).1.mpr (by decide)
  · exact (order_status_spec paidState "ORDER001" (by decide)).2.1
      ⟨"ORDER001", 1, "MLBB", "86_DIAMOND", 3/100, "1234", "5",
        "FPMD5", "PAID", some "resp-payload", "2026-01-01T00:00:00+07:00",
        some "2026-01-02T00:00:00+07:00"⟩ (List.Mem.head _) rfl

/-- Key-membership in the `item_prices` table, as SQLite's primary-key
check computes it. -/
def hasItem (t : List ItemRow) (k : String) : Bool :=
  t.any fun x => x.item_id == k

lemma hasItem_insertOrIgnore_self (t : List ItemRow) (r : ItemRow) :
    hasItem (insertOrIgnoreItem t r) r.item_id = true := by
  unfold insertOrIgnoreItem
  by_cases h : (t.any fun x => x.item_id == r.item_id) = true
  · rw [if_pos h]; exact h
  · rw [if_neg h]
    unfold hasItem
    simp

lemma hasItem_insertOrIgnore_mono (t : List ItemRow) (r : ItemRow) (k : String)
    (h : hasItem t k = true) : hasItem (insertOrIgnoreItem t r) k = true := by
  unfold insertOrIgnoreItem
  split
  · exact h
  · unfold hasItem at h ⊢
    simp only [List.any_append, h, Bool.true_or]

lemma hasItem_foldl_mono (ds : List ItemRow) :
    ∀ (t : List ItemRow) (k : String), hasItem t k = true →
      hasItem (ds.foldl insertOrIgnoreItem t) k = true := by
  induction ds with
  | nil => intro t k h; exact h
  | cons d ds ih =>
    intro t k h
    exact ih _ k (hasItem_insertOrIgnore_mono t d k h)

lemma hasItem_foldl_of_mem (ds : List ItemRow) :
    ∀ (t : List ItemRow) (r : ItemRow), r ∈ ds →
      hasItem (ds.foldl insertOrIgnoreItem t) r.item_id = true := by
  induction ds with
  | nil => intro _ r hr; cases hr
  | cons d ds ih =>
    intro t r hr
    rcases List.mem_cons.mp hr with rfl | hrt
    · exact hasItem_foldl_mono ds _ _ (hasItem_insertOrIgnore_self t r)
    · exact ih _ r hrt

lemma foldl_insertOrIgnore_of_all_present (ds : List ItemRow) :
    ∀ (t : List ItemRow), (∀ r ∈ ds, hasItem t r.item_id = true) →
      ds.foldl insertOrIgnoreItem t = t := by
  induction ds with
  | nil => intro t _; rfl
  | cons d ds ih =>
    intro t h
    have hd : insertOrIgnoreItem t d = t := by
      unfold insertOrIgnoreItem
      have hc : (t.any fun x => x.item_id == d.item_id) = true := h d (List.Mem.head _)
      rw [if_pos hc]
    rw [List.foldl_cons, hd]
    exact ih t fun r hr => h r (List.Mem.tail _ hr)

lemma foldl_insertOrIgnore_append (ds : List ItemRow) :
    ∀ (t : List ItemRow), ∃ l, ds.foldl insertOrIgnoreItem t = t ++ l := by
  induction ds with
  | nil => intro t; exact ⟨[], (List.append_nil t).symm⟩
  | cons d ds ih =>
    intro t
    obtain ⟨l, hl⟩ := ih (insertOrIgnoreItem t d)
    rw [List.foldl_cons, hl]
    unfold insertOrIgnoreItem
    split
    · exact ⟨l, rfl⟩
    · exact ⟨[d] ++ l, by rw [List.append_assoc]⟩

/-- C6: seeding is idempotent — a second run of `init_db` changes
nothing — and a run of `init_db` only ever appends rows after the
existing `item_prices` rows, so rows present before the run (price edits
included) survive it verbatim. -/
theorem init_db_idempotent (st : DBState) :
    init_db (init_db st) = init_db st ∧
    ∃ l, (init_db st).item_prices = st.item_prices ++ l := by
  constructor
  · unfold init_db
    simp only [DBState.mk.injEq, and_true, true_and]
    show seed_items (seed_items st.item_prices) = seed_items st.item_prices
    unfold seed_items
    exact foldl_insertOrIgnore_of_all_present default_items _
      fun r hr => hasItem_foldl_of_mem default_items st.item_prices r hr
  · exact foldl_insertOrIgnore_append default_items st.item_prices

/-- C7: `GET /orders` returns exactly the demo caller's orders — a
permutation of the rows with `user_id = 1`, projected onto the listed
columns — arranged newest first (`created_at` descending), and the empty
sequence when the caller has no orders. -/
theorem orders_page_spec (st : DBState) :
    ((orders_page st).1).Pairwise
      (fun a b => b.created_at ≤ a.created_at) ∧
    ((orders_page st).1).Perm
      ((st.orders.filter fun r => r.user_id == 1).map summarize) ∧
    ((st.orders.filter fun r => r.user_id == 1) = [] → (orders_page st).1 = []) := by
  refine ⟨?_, ?_, ?_⟩
  · unfold orders_page
    rw [List.pairwise_map]
    have trans : ∀ a b c : OrderRow, newestFirst a b → newestFirst b c →
        newestFirst a c := by
      intro a b c h1 h2
      exact decide_eq_true (le_trans (of_decide_eq_true h2) (of_decide_eq_true h1))
    have total : ∀ a b : OrderRow, newestFirst a b || newestFirst b a := by
      intro a b
      simp only [newestFirst, Bool.or_eq_true, decide_eq_true_eq]
      exact le_total _ _
    have hs := List.sorted_mergeSort trans total
      (st.orders.filter fun r => r.user_id == 1)
    exact hs.imp fun h => of_decide_eq_true h
  · unfold orders_page
    exact (List.mergeSort_perm _ newestFirst).map summarize
  · intro h
    unfold orders_page
    rw [h]
    simp

/-- C8: `is_reseller` returns `true` exactly when a user with that id
exists (user ids being unique, as the `user_id` primary key guarantees)
and carries the reseller flag `1`; for a `user_id` absent from the users
table it returns `false` rather than erroring. -/
theorem is_reseller_spec (st : DBState) (uid : Int)
    (hnd : (st.users.map fun u => u.user_id).Nodup) :
    (is_reseller st uid = true ↔
      ∃ u ∈ st.users, u.user_id = uid ∧ u.is_reseller = 1) ∧
    ((∀ u ∈ st.users, u.user_id ≠ uid) → is_reseller st uid = false) := by
  constructor
  · constructor
    · intro h
      unfold is_reseller at h
      cases hf : st.users.find? fun u => u.user_id == uid with
      | none => rw [hf] at h; cases h
      | some u =>
        rw [hf] at h
        exact ⟨u, List.mem_of_find?_eq_some hf,
          by simpa using List.find?_some hf, by simpa using h⟩
    · rintro ⟨u, hu, rfl, hflag⟩
      unfold is_reseller
      rw [find?_eq_of_key_nodup (fun y => y.user_id) st.users hnd u hu]
      simp [hflag]
  · intro h
    unfold is_reseller
    have hf : (st.users.find? fun u => u.user_id == uid) = none := by
      rw [List.find?_eq_none]
      intro u hu
      simpa using h u hu
    rw [hf]

theorem is_reseller_spec_witness :
    is_reseller usersState 2 = true ∧ is_reseller usersState 7 = false := by
  constructor
  · exact (is_reseller_spec usersState 2 (by decide)).1.mpr
      ⟨⟨2, "shop", 0, 1⟩, List.Mem.tail _ (List.Mem.head _), rfl, rfl⟩
  · exact (is_reseller_spec usersState 7 (by decide)).2 (by decide)

/-- Unfolding of the status lookup one row at a time. -/
lemma order_status_result_cons (a : OrderRow) (t : List OrderRow) (oid : String) :
    order_status_result (a :: t) oid
      = if a.order_id == oid then .found a.status a.payment_response a.paid_at
        else order_status_result t oid := by
  unfold order_status_result
  rw [List.find?_cons]
  cases hk : a.order_id == oid
  · simp
  · simp

/-- The status lookup only reads the observable projection of each row. -/
lemma order_status_result_obs_congr (oid : String) :
    ∀ (l1 l2 : List OrderRow), l1.map orderObs = l2.map orderObs →
      order_status_result l1 oid = order_status_result l2 oid := by
  intro l1
  induction l1 with
  | nil =>
    intro l2 h
    have h2 : l2 = [] := by simpa using h.symm
    subst h2
    rfl
  | cons a t ih =>
    intro l2 h
    cases l2 with
    | nil => simp at h
    | cons b t2 =>
      simp only [List.map_cons, List.cons.injEq] at h
      obtain ⟨hab, ht⟩ := h
      simp only [orderObs, Prod.mk.injEq] at hab
      obtain ⟨hid, hst, hpr, hpa⟩ := hab
      rw [order_status_result_cons, order_status_result_cons, hid, hst, hpr, hpa,
        ih t2 ht]

/-- C9: the status route's answer depends only on the queried `order_id`
and the stored `(order_id, status, payment_response, paid_at)` of each
order row — not on the caller, not on the `users` or `item_prices`
tables, and not on the orders' `user_id`: any two databases whose orders
agree on that projection answer every status query identically, so any
existing order's status is served to any caller. -/
theorem order_status_caller_independent (st1 st2 : DBState) (oid : String)
    (h : st1.orders.map orderObs = st2.orders.map orderObs) :
    (order_status st1 oid).1 = (order_status st2 oid).1 :=
  order_status_result_obs_congr oid st1.orders st2.orders h

theorem order_status_caller_independent_witness :
    (order_status paidState "ORDER001").1
      = (order_status { users := [],
                        item_prices := [],
                        orders := [⟨"ORDER001", 99, "FF", "50_DIAMOND", 1,
                          "s1", "z1", "OTHERMD5", "PAID", some "resp-payload",
                          "2099-12-31T23:59:59+07:00",
                          some "2026-01-02T00:00:00+07:00"⟩] } "ORDER001").1 :=
  order_status_caller_independent paidState _ "ORDER001" rfl

/-- On every error path `buy` leaves the database untouched. -/
lemma buy_error_state (st : DBState) (game item_id server_id zone_id : String)
    (qrExt : Except String (String × String)) (choices : Fin 8 → Fin 36)
    (created_at : String) (e : HErr) (st' : DBState)
    (hb : buy st game item_id server_id zone_id qrExt choices created_at
      = (.error e, st')) : st' = st := by
  cases hfind : st.item_prices.find? fun r => r.item_id == item_id && r.game == game with
  | none =>
    rw [buy_notFound_eq st game item_id server_id zone_id qrExt choices created_at
      hfind] at hb
    injection hb with h1 h2
    exact h2.symm
  | some row =>
    cases qrExt with
    | error msg =>
      rw [buy_qrErr_eq st game item_id server_id zone_id msg choices created_at
        row hfind] at hb
      injection hb with h1 h2
      exact h2.symm
    | ok p =>
      obtain ⟨b64, md5⟩ := p
      by_cases hbe : b64 = ""
      · subst hbe
        unfold buy at hb
        rw [hfind] at hb
        simp only [generate_qr_code, truthyStr] at hb
        injection hb with h1 h2
        exact h2.symm
      by_cases hme : md5 = ""
      · subst hme
        unfold buy at hb
        rw [hfind] at hb
        simp only [generate_qr_code, truthyStr] at hb
        rw [if_pos (by simp)] at hb
        injection hb with h1 h2
        exact h2.symm
      by_cases hcol : (st.orders.any
          fun r => r.order_id == generate_short_transaction_id choices) = true
      · unfold buy at hb
        rw [hfind] at hb
        simp only [generate_qr_code, truthyStr, insertOrder, hcol,
          beq_eq_false_iff_ne.mpr hbe, beq_eq_false_iff_ne.mpr hme,
          Bool.not_false, Bool.or_self, Bool.false_or, if_true, if_pos,
          Bool.false_eq_true, ite_false, ite_true] at hb
        injection hb with h1 h2
        exact h2.symm
      · have hcol' : (st.orders.any
            fun r => r.order_id == generate_short_transaction_id choices) = false :=
          Bool.not_eq_true _ ▸ hcol
        rw [buy_ok_eq st game item_id server_id zone_id row b64 md5 created_at
          choices hfind hbe hme hcol'] at hb
        injection hb with h1 h2
        simp at h1

/-- C10: request handlers do not modify the `users` or `item_prices`
tables; `GET /`, the status route and `GET /orders` leave the whole
database unchanged, and the only mutation is that a successful
`POST /buy` appends exactly one new row to `orders`, every pre-existing
row surviving unchanged (on a failed `buy` the database is unchanged
too). -/
theorem handlers_frame (st : DBState) (oid game item_id server_id zone_id : String)
    (qrExt : Except String (String × String)) (choices : Fin 8 → Fin 36)
    (created_at : String) :
    (home st).2 = st ∧ (order_status st oid).2 = st ∧ (orders_page st).2 = st ∧
    (match buy st game item_id server_id zone_id qrExt choices created_at with
     | (.ok _, st') => st'.users = st.users ∧ st'.item_prices = st.item_prices ∧
         ∃ o, st'.orders = st.orders ++ [o]
     | (.error _, st') => st' = st) := by
  refine ⟨rfl, rfl, rfl, ?_⟩
  cases hres : buy st game item_id server_id zone_id qrExt choices created_at with
  | mk res st2 =>
    cases res with
    | ok r =>
      obtain ⟨row, b64, md5, hfind, hqr, hbne, hmne, hcol, hresp, hst'⟩ :=
        buy_ok_inv st game item_id server_id zone_id qrExt choices created_at
          r st2 hres
      subst hst'
      exact ⟨rfl, rfl, _, rfl⟩
    | error e =>
      exact buy_error_state st game item_id server_id zone_id qrExt choices
        created_at e st2 hres
